import Mathlib

/-!
Shallow embedding of the sorvide license backend.

Two implementations coexist in the repository and are both embedded here:

* the standalone `server.js` variant (Mongo schema at lines 100-115, webhook
  handlers `handleSuccessfulPayment` / `handleInvoicePayment` /
  `handleSubscriptionUpdate`, and the `POST /api/validate-license` and
  `POST /api/device-license` route handlers), modelled by `License`,
  `ServerState`, `handleSuccessfulPayment`, `handleInvoicePayment`,
  `handleSubscriptionUpdate`, `validateLicense` and `deviceLicenseLookup`;

* the split service variant (`models/License.js` schema plus the
  `LicenseService` class), modelled by `ModelLicense` and the definitions in
  namespace `LicenseService`.

Timestamps are natural numbers counting milliseconds (the unit of JavaScript
`Date.getTime()`); `Math.random()` draws are externalized as explicit string
parameters (the four 4-character key segments). A Mongo collection is a
`List` of records; `findOne` is `List.find?` on the query predicate, and
`document.save()` on a fetched document replaces every stored record carrying
the document's unique `licenseKey` (`saveLicense`), while `save()` on a fresh
document is an insert that the unique index rejects on a duplicate key
(`insertLicense`).
-/

/-- Milliseconds in one day, the divisor `1000 * 60 * 60 * 24` used by the
daysLeft computations in the source. -/
def dayMs : Nat := 86400000

/-- Truthiness of a JavaScript string-or-null value: `null`/`undefined`
(modelled `none`) and the empty string are falsy. -/
def optTruthy : Option String → Bool
  | none => false
  | some s => !(s == "")

/-- The JavaScript idiom `s || dflt` on a string-or-null value `s`. -/
def optOrDefault (s : Option String) (dflt : String) : String :=
  match s with
  | none => dflt
  | some v => if v == "" then dflt else v

/-- The JavaScript idiom `email.split(\x7b'@'\x7d)[0]` written without the
braces: everything before the first `@` of the string (the whole string when
no `@` occurs). -/
def localPart (email : String) : String :=
  email.takeWhile (fun c => c != '@')

/-- License record of the standalone `server.js` variant (its Mongo schema
declares exactly these fields). -/
structure License where
  licenseKey : String
  customerEmail : String
  customerName : Option String
  stripeCustomerId : Option String
  stripeSubscriptionId : Option String
  stripeSessionId : Option String
  plan : String
  createdAt : Nat
  expiresAt : Nat
  isActive : Bool
  deviceId : Option String
  deviceName : Option String
  lastValidated : Option Nat
  validationCount : Nat
deriving DecidableEq, Repr

/-- Mongo `findOne(\x7b licenseKey \x7d)`. -/
def findByKey (store : List License) (key : String) : Option License :=
  store.find? (fun l => l.licenseKey == key)

/-- Mongo `findOne(\x7b stripeCustomerId, isActive: true \x7d)` used by
`handleInvoicePayment`. -/
def findByCustomerActive (store : List License) (cust : String) : Option License :=
  store.find? (fun l => l.stripeCustomerId == some cust && l.isActive)

/-- Mongo `findOne(\x7b stripeSubscriptionId \x7d)` used by
`handleSubscriptionUpdate`. -/
def findBySubscription (store : List License) (subId : String) : Option License :=
  store.find? (fun l => l.stripeSubscriptionId == some subId)

/-- Mongo `findOne(\x7b deviceId, isActive: true \x7d)` used by the
device-license route. -/
def findByDeviceActive (store : List License) (deviceId : String) : Option License :=
  store.find? (fun l => l.deviceId == some deviceId && l.isActive)

/-- Persisting a fetched document: every stored record with the document's
(unique) `licenseKey` is replaced by the document. -/
def saveLicense (doc : License) (store : List License) : List License :=
  store.map (fun l => if l.licenseKey == doc.licenseKey then doc else l)

/-- Persisting a freshly constructed document: the unique index on
`licenseKey` rejects the insert (`none`) when the key is already present. -/
def insertLicense (lic : License) (store : List License) : Option (List License) :=
  if store.any (fun l => l.licenseKey == lic.licenseKey) then none
  else some (store ++ [lic])

/-- The in-process `deviceMappings` map of `server.js` (device id to license
key), as an association list. -/
def lookupMapping (m : List (String × String)) (k : String) : Option String :=
  (m.find? (fun p => p.1 == k)).map (fun p => p.2)

/-- `deviceMappings.set(k, v)`. -/
def setMapping (m : List (String × String)) (k v : String) : List (String × String) :=
  if m.any (fun p => p.1 == k) then m.map (fun p => if p.1 == k then (k, v) else p)
  else m ++ [(k, v)]

/-- `deviceMappings.delete(k)`. -/
def deleteMapping (m : List (String × String)) (k : String) : List (String × String) :=
  m.filter (fun p => !(p.1 == k))

/-- Mutable state of the standalone server: the Mongo collection plus the
in-process `deviceMappings` map. -/
structure ServerState where
  store : List License
  deviceMappings : List (String × String)
deriving DecidableEq, Repr

/-- Key generation of `server.js` lines 123-140: the four `Math.random()`
segments are passed in; the plan tag is always `MONTH`. -/
def generateLicenseKey (p1 p2 p3 p4 : String) : String :=
  "MONTH-" ++ ("SORV-" ++ p1 ++ "-" ++ p2 ++ "-" ++ p3 ++ "-" ++ p4)

/-- The fields of a `checkout.session.completed` event object that
`handleSuccessfulPayment` reads. -/
structure Session where
  id : String
  customer : Option String
  subscription : Option String
  email : String
  name : Option String
deriving DecidableEq, Repr

/-- Webhook handler for `checkout.session.completed` (`server.js` lines
142-182): builds a fresh monthly license expiring 30 days from now and
inserts it; any error (including a duplicate-key rejection) is swallowed by
the surrounding try/catch, leaving the store unchanged. The freshly generated
random key is passed in as `key`. -/
def handleSuccessfulPayment (now : Nat) (sess : Session) (key : String)
    (store : List License) : List License :=
  let license : License := {
    licenseKey := key
    customerEmail := sess.email
    customerName := some (optOrDefault sess.name (localPart sess.email))
    stripeCustomerId := sess.customer
    stripeSubscriptionId := sess.subscription
    stripeSessionId := some sess.id
    plan := "monthly"
    createdAt := now
    expiresAt := now + 30 * dayMs
    isActive := true
    deviceId := none
    deviceName := none
    lastValidated := none
    validationCount := 0 }
  match insertLicense license store with
  | some st => st
  | none => store

/-- Webhook handler for `invoice.paid` (`server.js` lines 752-773): find the
active license of the invoice's customer and reset its expiry to 30 days
from now. -/
def handleInvoicePayment (now : Nat) (customer : String)
    (store : List License) : List License :=
  match findByCustomerActive store customer with
  | none => store
  | some license =>
      saveLicense { license with expiresAt := now + 30 * dayMs } store

/-- Webhook handler for `customer.subscription.updated` / `.deleted`
(`server.js` lines 775-801). `periodEnd` is the provider's
`current_period_end` in seconds; the source multiplies it by 1000. -/
def handleSubscriptionUpdate (subId status : String) (periodEnd : Nat)
    (store : List License) : List License :=
  match findBySubscription store subId with
  | none => store
  | some license =>
      let doc :=
        if status == "active" then
          { license with isActive := true, expiresAt := periodEnd * 1000 }
        else if status == "canceled" || status == "unpaid" then
          { license with isActive := false }
        else license
      saveLicense doc store

/-- Outcome of the `POST /api/validate-license` route. -/
inductive ValidateResult where
  | missingParams
  | notFound
  | inactive
  | expired
  | deviceConflict
  | ok (daysLeft : Nat)
deriving DecidableEq, Repr

/-- The `deviceMappings` block of the `POST /api/validate-license` handler
(`server.js` lines 858-868): when the in-process map binds the calling
device to a different key and that license still carries this device, the
block clears that other license's `deviceId` and `deviceName` and persists
it. -/
def releaseOldDevice (store : List License) (mappings : List (String × String))
    (deviceId licenseKey : String) : List License :=
  match lookupMapping mappings deviceId with
  | some oldKey =>
    if oldKey ≠ "" ∧ oldKey ≠ licenseKey then
      match findByKey store oldKey with
      | some oldLicense =>
        if oldLicense.deviceId == some deviceId then
          saveLicense { oldLicense with deviceId := none, deviceName := none } store
        else store
      | none => store
    else store
  | none => store

/-- The `POST /api/validate-license` handler of `server.js` lines 817-914,
including the `deviceMappings` block (lines 858-868) that silently releases
the device from a different license previously mapped to the calling
device. -/
def validateLicense (now : Nat) (licenseKey deviceId : String)
    (deviceName : Option String) (st : ServerState) : ValidateResult × ServerState :=
  if licenseKey = "" ∨ deviceId = "" then (.missingParams, st)
  else
    match findByKey st.store licenseKey with
    | none => (.notFound, st)
    | some license =>
      if license.isActive = false then (.inactive, st)
      else if license.expiresAt < now then
        (.expired, { st with store := saveLicense { license with isActive := false } st.store })
      else
        let store1 := releaseOldDevice st.store st.deviceMappings deviceId licenseKey
        if optTruthy license.deviceId && license.deviceId != some deviceId then
          (.deviceConflict, { st with store := store1 })
        else
          let updated := { license with
            deviceId := some deviceId
            deviceName := some (optOrDefault deviceName "Chrome Extension")
            lastValidated := some now
            validationCount := license.validationCount + 1 }
          (.ok ((license.expiresAt - now + dayMs - 1) / dayMs),
            { store := saveLicense updated store1
              deviceMappings := setMapping st.deviceMappings deviceId licenseKey })

/-- Outcome of the `POST /api/device-license` route. -/
inductive DeviceLookupResult where
  | missingDevice
  | noLicense
  | hasLicense (daysLeft : Nat)
deriving DecidableEq, Repr

/-- The `POST /api/device-license` handler of `server.js` lines 917-969:
looks up the active license bound to the device, and when that license has
expired it flips `isActive` to false, persists it, drops the device mapping,
and reports no license. -/
def deviceLicenseLookup (now : Nat) (deviceId : String)
    (st : ServerState) : DeviceLookupResult × ServerState :=
  if deviceId = "" then (.missingDevice, st)
  else
    match findByDeviceActive st.store deviceId with
    | none => (.noLicense, st)
    | some license =>
      if license.expiresAt < now then
        (.noLicense,
          { store := saveLicense { license with isActive := false } st.store
            deviceMappings := deleteMapping st.deviceMappings deviceId })
      else (.hasLicense ((license.expiresAt - now + dayMs - 1) / dayMs), st)

/-- License record of the split service variant (`models/License.js`
schema). -/
structure ModelLicense where
  licenseKey : String
  licenseType : String
  durationMonths : Nat
  customerEmail : String
  customerName : Option String
  stripeCustomerId : Option String
  stripeSubscriptionId : Option String
  stripePaymentIntentId : Option String
  stripeInvoiceId : Option String
  createdAt : Nat
  activatedAt : Option Nat
  expiresAt : Nat
  isActive : Bool
  deviceId : Option String
  deviceName : Option String
  lastValidated : Option Nat
  validationCount : Nat
  notes : Option String
  isTrial : Bool
  trialEndsAt : Option Nat
deriving DecidableEq, Repr

/-- Persisting a fetched `ModelLicense` document, replacing by the unique
`licenseKey`. -/
def saveModelLicense (doc : ModelLicense) (store : List ModelLicense) : List ModelLicense :=
  store.map (fun l => if l.licenseKey == doc.licenseKey then doc else l)

/-- Inserting a fresh `ModelLicense` document; the unique index on
`licenseKey` rejects the insert on a duplicate key. -/
def insertModelLicense (lic : ModelLicense) (store : List ModelLicense) :
    Option (List ModelLicense) :=
  if store.any (fun l => l.licenseKey == lic.licenseKey) then none
  else some (store ++ [lic])

namespace LicenseService

/-- Return value of `LicenseService.generateLicenseKey`. -/
structure KeyData where
  key : String
  type : String
  durationMonths : Nat
deriving DecidableEq, Repr

/-- Key generation of `LicenseService.generateLicenseKey` (part_002 lines
9-41). The four random 4-character segments produced by `generatePart()` are
passed in as `p1 .. p4`; the plan tag is `MONTH`, `YEAR` or `LIFE` and the
actual duration is forced to 12 months for yearly and 999 for lifetime. -/
def generateLicenseKey (type : String) (durationMonths : Nat)
    (p1 p2 p3 p4 : String) : KeyData :=
  let key := "SORV-" ++ p1 ++ "-" ++ p2 ++ "-" ++ p3 ++ "-" ++ p4
  let tagAndDuration : String × Nat :=
    if type == "yearly" then ("YEAR", 12)
    else if type == "lifetime" then ("LIFE", 999)
    else ("MONTH", durationMonths)
  { key := tagAndDuration.1 ++ "-" ++ key
    type := type
    durationMonths := tagAndDuration.2 }

/-- The Stripe correlation fields passed to
`LicenseService.createLicenseForCustomer`. -/
structure StripeData where
  customerId : Option String
  subscriptionId : Option String
  paymentIntentId : Option String
  invoiceId : Option String
deriving DecidableEq, Repr

/-- Result of `LicenseService.createLicenseForCustomer`: the success flag and
the key on success. -/
structure CreateResult where
  success : Bool
  key : Option String
deriving DecidableEq, Repr

/-- `LicenseService.createLicenseForCustomer` (part_002 lines 43-80): one key
generation, one expiry computation, ONE insert attempt; any store error
(including a duplicate-key rejection) is swallowed by the try/catch and
reported as a failure, with no retry. The JavaScript computes the expiry by
calendar-month arithmetic (`Date.setMonth`); that arithmetic is abstracted
here as the argument `addMonths now months`, since no claim depends on its
value. -/
def createLicenseForCustomer (addMonths : Nat → Nat → Nat) (now : Nat)
    (customerEmail : String) (customerName : Option String) (type : String)
    (sd : StripeData) (p1 p2 p3 p4 : String) (store : List ModelLicense) :
    CreateResult × List ModelLicense :=
  let keyData := generateLicenseKey type (if type == "yearly" then 12 else 1) p1 p2 p3 p4
  let license : ModelLicense := {
    licenseKey := keyData.key
    licenseType := keyData.type
    durationMonths := keyData.durationMonths
    customerEmail := customerEmail
    customerName := customerName
    stripeCustomerId := sd.customerId
    stripeSubscriptionId := sd.subscriptionId
    stripePaymentIntentId := sd.paymentIntentId
    stripeInvoiceId := sd.invoiceId
    createdAt := now
    activatedAt := none
    expiresAt := addMonths now keyData.durationMonths
    isActive := true
    deviceId := none
    deviceName := none
    lastValidated := none
    validationCount := 0
    notes := none
    isTrial := false
    trialEndsAt := none }
  match insertModelLicense license store with
  | some st => ({ success := true, key := some keyData.key }, st)
  | none => ({ success := false, key := none }, store)

/-- Outcome of `LicenseService.validateLicenseKey`. -/
inductive SvcResult where
  | notFoundOrInactive
  | expired
  | alreadyActivated
  | valid (daysLeft : Nat)
deriving DecidableEq, Repr

/-- `LicenseService.validateLicenseKey` (part_002 lines 82-152): `findOne` on
licenseKey AND isActive, lazy expiry collapse, device-conflict check skipped
when the caller supplies no (truthy) deviceId, device binding only when no
device is bound yet, then counter bump and save. -/
def validateLicenseKey (now : Nat) (licenseKey : String)
    (deviceId deviceName : Option String) (store : List ModelLicense) :
    SvcResult × List ModelLicense :=
  match store.find? (fun l => l.licenseKey == licenseKey && l.isActive) with
  | none => (.notFoundOrInactive, store)
  | some license =>
    if license.expiresAt < now then
      (.expired, saveModelLicense { license with isActive := false } store)
    else if optTruthy license.deviceId && license.deviceId != deviceId
        && optTruthy deviceId then
      (.alreadyActivated, store)
    else
      let license1 :=
        if optTruthy deviceId && !(optTruthy license.deviceId) then
          { license with
            deviceId := deviceId
            deviceName := some (optOrDefault deviceName "Unknown Device")
            activatedAt := some now }
        else license
      let license2 := { license1 with
        lastValidated := some now
        validationCount := license1.validationCount + 1 }
      (.valid ((license.expiresAt - now + dayMs - 1) / dayMs),
        saveModelLicense license2 store)

/-- Outcome of `LicenseService.getDeviceLicense`. -/
inductive DeviceResult where
  | noLicense
  | hasLicense (daysLeft : Nat)
deriving DecidableEq, Repr

/-- `LicenseService.getDeviceLicense` (part_002 lines 154-193): `findOne` on
deviceId AND isActive; when the found license has expired, flip `isActive`
to false, persist, and report no license. -/
def getDeviceLicense (now : Nat) (deviceId : String)
    (store : List ModelLicense) : DeviceResult × List ModelLicense :=
  match store.find? (fun l => l.deviceId == some deviceId && l.isActive) with
  | none => (.noLicense, store)
  | some license =>
    if license.expiresAt < now then
      (.noLicense, saveModelLicense { license with isActive := false } store)
    else (.hasLicense ((license.expiresAt - now + dayMs - 1) / dayMs), store)

end LicenseService

/-! Helper lemmas about the store operations. -/

/-- A record returned by `findByKey` carries the queried key. -/
theorem findByKey_eq_key {store : List License} {key : String} {lic : License}
    (h : findByKey store key = some lic) : lic.licenseKey = key := by
  have hp := List.find?_some h
  simpa using hp

/-- A record returned by `findByCustomerActive` is active. -/
theorem findByCustomerActive_isActive {store : List License} {cust : String}
    {lic : License} (h : findByCustomerActive store cust = some lic) :
    lic.isActive = true := by
  have hp := List.find?_some h
  simp only [Bool.and_eq_true, beq_iff_eq] at hp
  exact hp.2

/-- Saving does not change the number of stored records. -/
theorem saveLicense_length (doc : License) (store : List License) :
    (saveLicense doc store).length = store.length := by
  simp [saveLicense]

/-- When a transformation does not change whether any element satisfies the
predicate, searching the transformed list finds the transform of what the
search on the original list finds. -/
theorem find?_map_congr {α : Type} (p : α → Bool) (f : α → α)
    (hf : ∀ a, p (f a) = p a) (l : List α) :
    List.find? p (l.map f) = (List.find? p l).map f := by
  induction l with
  | nil => rfl
  | cons a tl ih =>
    cases hpa : p a
    · rw [List.map_cons, List.find?_cons_of_neg, List.find?_cons_of_neg]
      · simpa using ih
      · simp [hpa]
      · simp [hf a, hpa]
    · rw [List.map_cons, List.find?_cons_of_pos, List.find?_cons_of_pos]
      · simp
      · simp [hpa]
      · simp [hf a, hpa]

/-- Master lemma relating `findByKey` and `saveLicense`: looking up after a
save returns the looked-up record, replaced by the document when it carried
the document's key. -/
theorem findByKey_saveLicense (doc : License) (store : List License)
    (key : String) :
    findByKey (saveLicense doc store) key =
      (findByKey store key).map
        (fun l => if l.licenseKey == doc.licenseKey then doc else l) := by
  unfold findByKey saveLicense
  apply find?_map_congr
  intro a
  by_cases h : a.licenseKey = doc.licenseKey
  · simp [h]
  · simp [h]

/-- Saving a document whose key differs from the queried key does not change
what `findByKey` returns for that query. -/
theorem findByKey_saveLicense_ne {doc : License} {key : String}
    (store : List License) (h : doc.licenseKey ≠ key) :
    findByKey (saveLicense doc store) key = findByKey store key := by
  rw [findByKey_saveLicense]
  cases hfind : findByKey store key with
  | none => rfl
  | some lic =>
    have hl : lic.licenseKey = key := findByKey_eq_key hfind
    have hne : (lic.licenseKey == doc.licenseKey) = false := by
      rw [hl]; exact beq_eq_false_iff_ne.mpr (Ne.symm h)
    simp [Option.map, hne]

/-- Saving a document carrying the queried key makes `findByKey` return that
document, provided the query already found some record. -/
theorem findByKey_saveLicense_found {doc : License} {key : String}
    {store : List License} {lic : License}
    (hfind : findByKey store key = some lic) (hdoc : doc.licenseKey = key) :
    findByKey (saveLicense doc store) key = some doc := by
  rw [findByKey_saveLicense, hfind]
  have hl : lic.licenseKey = key := findByKey_eq_key hfind
  simp [hl, hdoc]

/-- Every member of a saved store is either the saved document or an
untouched record whose key differs from the document's. -/
theorem mem_saveLicense {doc : License} {store : List License} {l : License}
    (h : l ∈ saveLicense doc store) :
    l = doc ∨ (l ∈ store ∧ l.licenseKey ≠ doc.licenseKey) := by
  simp only [saveLicense, List.mem_map] at h
  obtain ⟨a, ha, hl⟩ := h
  by_cases hk : a.licenseKey = doc.licenseKey
  · left; rw [← hl]; simp [hk]
  · right
    have hne : (a.licenseKey == doc.licenseKey) = false := beq_eq_false_iff_ne.mpr hk
    rw [← hl]
    simp only [hne, Bool.false_eq_true, if_false]
    exact ⟨ha, hk⟩

/-- Record-level view of saving, by position: the record at index `i` is
replaced by the document exactly when it carries the document's key. -/
theorem saveLicense_get (doc : License) (store : List License) (i : Nat)
    (hi : i < store.length) (hj : i < (saveLicense doc store).length) :
    (saveLicense doc store).get ⟨i, hj⟩ =
      if (store.get ⟨i, hi⟩).licenseKey == doc.licenseKey then doc
      else store.get ⟨i, hi⟩ := by
  simp [saveLicense, List.get_eq_getElem, List.getElem_map]

/-- `ModelLicense` analogue of `findByKey_eq_key`, for the active-key query
of `LicenseService.validateLicenseKey`. -/
theorem svcFind_eq_key {store : List ModelLicense} {key : String}
    {lic : ModelLicense}
    (h : store.find? (fun l => l.licenseKey == key && l.isActive) = some lic) :
    lic.licenseKey = key ∧ lic.isActive = true := by
  have hp := List.find?_some h
  simp only [Bool.and_eq_true, beq_iff_eq] at hp
  exact hp

/-- `ModelLicense` analogue of `mem_saveLicense`. -/
theorem mem_saveModelLicense {doc : ModelLicense} {store : List ModelLicense}
    {l : ModelLicense} (h : l ∈ saveModelLicense doc store) :
    l = doc ∨ (l ∈ store ∧ l.licenseKey ≠ doc.licenseKey) := by
  simp only [saveModelLicense, List.mem_map] at h
  obtain ⟨a, ha, hl⟩ := h
  by_cases hk : a.licenseKey = doc.licenseKey
  · left; rw [← hl]; simp [hk]
  · right
    have hne : (a.licenseKey == doc.licenseKey) = false := beq_eq_false_iff_ne.mpr hk
    rw [← hl]
    simp only [hne, Bool.false_eq_true, if_false]
    exact ⟨ha, hk⟩
/-- Case characterization of the release block: either it leaves the store
alone, or the device map named a different non-empty key whose license still
carried the calling device, and the block saved that license with its device
fields cleared. -/
theorem releaseOldDevice_cases (store : List License)
    (mappings : List (String × String)) (dev key : String) :
    releaseOldDevice store mappings dev key = store ∨
    ∃ oldKey oldLicense,
      lookupMapping mappings dev = some oldKey ∧ oldKey ≠ "" ∧ oldKey ≠ key ∧
      findByKey store oldKey = some oldLicense ∧
      oldLicense.licenseKey = oldKey ∧
      releaseOldDevice store mappings dev key =
        saveLicense { oldLicense with deviceId := none, deviceName := none } store := by
  unfold releaseOldDevice
  cases hm : lookupMapping mappings dev with
  | none => left; rfl
  | some oldKey =>
    dsimp only
    by_cases hcond : oldKey ≠ "" ∧ oldKey ≠ key
    · rw [if_pos hcond]
      cases hold : findByKey store oldKey with
      | none => left; rfl
      | some oldLicense =>
        dsimp only
        by_cases hdev : oldLicense.deviceId == some dev
        · rw [if_pos hdev]
          right
          exact ⟨oldKey, oldLicense, rfl, hcond.1, hcond.2,
            hold, findByKey_eq_key hold, rfl⟩
        · rw [if_neg hdev]; left; rfl
    · rw [if_neg hcond]; left; rfl

/-- The release block never changes what `findByKey` returns for the
validated key itself (the key it may save under differs from it). -/
theorem findByKey_releaseOldDevice {store : List License}
    {mappings : List (String × String)} {dev key : String} {lic : License}
    (hfind : findByKey store key = some lic) :
    findByKey (releaseOldDevice store mappings dev key) key = some lic := by
  rcases releaseOldDevice_cases store mappings dev key with heq |
    ⟨oldKey, oldLicense, _, _, hnk, _, hkey, heq⟩
  · rw [heq]; exact hfind
  · rw [heq, findByKey_saveLicense_ne]
    · exact hfind
    · simpa [hkey] using hnk

/-- The release block does not change the number of stored records. -/
theorem releaseOldDevice_length (store : List License)
    (mappings : List (String × String)) (dev key : String) :
    (releaseOldDevice store mappings dev key).length = store.length := by
  rcases releaseOldDevice_cases store mappings dev key with heq |
    ⟨_, _, _, _, _, _, _, heq⟩
  · rw [heq]
  · rw [heq]; exact saveLicense_length _ _

/-- Positional view of saving with a total default-valued read: the record at
a position is replaced by the document exactly when it carried the
document's key. -/
theorem saveLicense_getD (doc : License) (store : List License) (i : Nat)
    (d : License) (hi : i < store.length) :
    (saveLicense doc store).getD i d =
      if (store.getD i d).licenseKey == doc.licenseKey then doc
      else store.getD i d := by
  induction store generalizing i with
  | nil => simp at hi
  | cons a tl ih =>
    cases i with
    | zero => simp [saveLicense, List.getD]
    | succ n =>
      simp only [saveLicense, List.map_cons, List.getD_cons_succ]
      exact ih n (by simpa using hi)

/-- Positional frame of the release block: a record whose key is not the one
the device map binds the calling device to is left untouched. -/
theorem releaseOldDevice_getD (store : List License)
    (mappings : List (String × String)) (dev key : String) (i : Nat)
    (d : License) (hi : i < store.length)
    (h : ∀ ok, lookupMapping mappings dev = some ok →
          (store.getD i d).licenseKey ≠ ok) :
    (releaseOldDevice store mappings dev key).getD i d = store.getD i d := by
  rcases releaseOldDevice_cases store mappings dev key with heq |
    ⟨oldKey, oldLicense, hm, _, _, _, hkey, heq⟩
  · rw [heq]
  · rw [heq, saveLicense_getD _ _ _ _ hi, if_neg]
    intro hbeq
    exact h oldKey hm (by simpa [hkey] using beq_iff_eq.mp hbeq)

/-- Reduction of the validate route on an active license that is strictly
past expiry. -/
theorem validateLicense_expired_eq
    (now : Nat) (key dev : String) (dn : Option String)
    (st : ServerState) (lic : License)
    (hk : key ≠ "") (hd : dev ≠ "")
    (hfind : findByKey st.store key = some lic)
    (hact : lic.isActive = true)
    (hexp : lic.expiresAt < now) :
    validateLicense now key dev dn st =
      (.expired, { st with store := saveLicense { lic with isActive := false } st.store }) := by
  unfold validateLicense
  rw [if_neg (by simp [hk, hd]), hfind]
  dsimp only
  rw [if_neg (by simp [hact]), if_pos hexp]

/-- C1 (amended: the expiry comparison is strict, `now > expiresAt`). On an
active license strictly past expiry, the validate route fails with
`expired`, and as a side effect every stored record under that key has
`isActive = false`; a second validate call on the same key then fails with
`inactive`, not `expired`. -/
theorem validate_expired_then_inactive
    (now nowTwo : Nat) (key dev devTwo : String) (dn dnTwo : Option String)
    (st : ServerState) (lic : License)
    (hk : key ≠ "") (hd : dev ≠ "") (hdTwo : devTwo ≠ "")
    (hfind : findByKey st.store key = some lic)
    (hact : lic.isActive = true)
    (hexp : lic.expiresAt < now) :
    (validateLicense now key dev dn st).1 = .expired ∧
    (∀ l ∈ (validateLicense now key dev dn st).2.store,
        l.licenseKey = key → l.isActive = false) ∧
    (validateLicense nowTwo key devTwo dnTwo
        (validateLicense now key dev dn st).2).1 = .inactive := by
  have hres := validateLicense_expired_eq now key dev dn st lic hk hd hfind hact hexp
  have hkey : lic.licenseKey = key := findByKey_eq_key hfind
  refine ⟨by rw [hres], ?_, ?_⟩
  · intro l hl hlk
    rw [hres] at hl
    rcases mem_saveLicense hl with rfl | ⟨_, hne⟩
    · rfl
    · exact absurd (by simpa [hkey] using hlk) hne
  · rw [hres]
    have hfound : findByKey (saveLicense { lic with isActive := false } st.store) key
        = some { lic with isActive := false } :=
      findByKey_saveLicense_found hfind (by simpa using hkey)
    unfold validateLicense
    rw [if_neg (by simp [hk, hdTwo])]
    dsimp only
    rw [hfound]
    simp

/-- Concrete expired license for exercising the validate route. -/
def licC1 : License := {
  licenseKey := "MONTH-SORV-AAAA-AAAA-AAAA-AAAA"
  customerEmail := "alice@example.com"
  customerName := some "Alice"
  stripeCustomerId := some "cus_1"
  stripeSubscriptionId := some "sub_1"
  stripeSessionId := some "cs_1"
  plan := "monthly"
  createdAt := 0
  expiresAt := 1000
  isActive := true
  deviceId := none
  deviceName := none
  lastValidated := none
  validationCount := 0 }

/-- Server state holding only `licC1` and an empty device map. -/
def stC1 : ServerState := { store := [licC1], deviceMappings := [] }

/-- Witness for C1's theorem: the hypotheses hold and the conclusion follows
at a concrete expired license. -/
theorem validate_expired_then_inactive_witness :
    (findByKey stC1.store "MONTH-SORV-AAAA-AAAA-AAAA-AAAA" = some licC1 ∧
     licC1.isActive = true ∧ licC1.expiresAt < 1001) ∧
    ((validateLicense 1001 "MONTH-SORV-AAAA-AAAA-AAAA-AAAA" "dev-1" none stC1).1 = .expired ∧
     (∀ l ∈ (validateLicense 1001 "MONTH-SORV-AAAA-AAAA-AAAA-AAAA" "dev-1" none stC1).2.store,
         l.licenseKey = "MONTH-SORV-AAAA-AAAA-AAAA-AAAA" → l.isActive = false) ∧
     (validateLicense 1002 "MONTH-SORV-AAAA-AAAA-AAAA-AAAA" "dev-1" none
         (validateLicense 1001 "MONTH-SORV-AAAA-AAAA-AAAA-AAAA" "dev-1" none stC1).2).1
       = .inactive) :=
  ⟨⟨by decide, by decide, by decide⟩,
   validate_expired_then_inactive 1001 1002
     "MONTH-SORV-AAAA-AAAA-AAAA-AAAA" "dev-1" "dev-1" none none stC1 licC1
     (by decide) (by decide) (by decide) (by decide) (by decide) (by decide)⟩

/-- Counterexample to C1 as stated: at the instant `now = expiresAt` (which
satisfies the claim's `now >= expiresAt`) the route does not fail with
`expired` — it validates successfully — and the license stays active,
because the source compares with a strict greater-than. -/
theorem validate_at_equal_expiry_not_expired :
    (validateLicense 1000 "MONTH-SORV-AAAA-AAAA-AAAA-AAAA" "dev-1" none stC1).1 = .ok 0 ∧
    ((validateLicense 1000 "MONTH-SORV-AAAA-AAAA-AAAA-AAAA" "dev-1" none stC1).2.store.map
        (fun l => l.isActive)) = [true] := by
  constructor
  · decide
  · decide

/-- C2. On an active, unexpired license already bound to a device, a
validate call presenting a different device id fails with `deviceConflict`
and the record stored under that key is returned completely unchanged — in
particular its `deviceId`, `deviceName`, `lastValidated` and
`validationCount` — and the device map is untouched too. -/
theorem validate_conflict_no_mutation
    (now : Nat) (key dev dOld : String) (dn : Option String)
    (st : ServerState) (lic : License)
    (hk : key ≠ "") (hd : dev ≠ "")
    (hfind : findByKey st.store key = some lic)
    (hact : lic.isActive = true)
    (hexp : ¬ lic.expiresAt < now)
    (hbound : lic.deviceId = some dOld) (hd0 : dOld ≠ "") (hne : dOld ≠ dev) :
    (validateLicense now key dev dn st).1 = .deviceConflict ∧
    findByKey (validateLicense now key dev dn st).2.store key = some lic ∧
    (validateLicense now key dev dn st).2.deviceMappings = st.deviceMappings := by
  have hcond : (optTruthy lic.deviceId && lic.deviceId != some dev) = true := by
    simp [hbound, optTruthy, hd0, hne]
  have hres : validateLicense now key dev dn st =
      (.deviceConflict,
        { st with store := releaseOldDevice st.store st.deviceMappings dev key }) := by
    unfold validateLicense
    rw [if_neg (by simp [hk, hd]), hfind]
    dsimp only
    rw [if_neg (by simp [hact]), if_neg hexp, if_pos hcond]
  refine ⟨by rw [hres], ?_, by rw [hres]⟩
  rw [hres]
  exact findByKey_releaseOldDevice hfind

/-- Concrete active license bound to device `dev-1`. -/
def licC2 : License := {
  licenseKey := "MONTH-SORV-BBBB-BBBB-BBBB-BBBB"
  customerEmail := "alice@example.com"
  customerName := some "Alice"
  stripeCustomerId := some "cus_1"
  stripeSubscriptionId := some "sub_1"
  stripeSessionId := some "cs_1"
  plan := "monthly"
  createdAt := 0
  expiresAt := 5000
  isActive := true
  deviceId := some "dev-1"
  deviceName := some "Laptop"
  lastValidated := some 10
  validationCount := 1 }

/-- Server state holding only `licC2`. -/
def stC2 : ServerState := { store := [licC2], deviceMappings := [] }

/-- Witness for C2's theorem: validating with a second device against the
concrete bound license yields a conflict and mutates nothing. -/
theorem validate_conflict_no_mutation_witness :
    (findByKey stC2.store "MONTH-SORV-BBBB-BBBB-BBBB-BBBB" = some licC2 ∧
     licC2.isActive = true ∧ ¬ licC2.expiresAt < 100 ∧
     licC2.deviceId = some "dev-1") ∧
    ((validateLicense 100 "MONTH-SORV-BBBB-BBBB-BBBB-BBBB" "dev-2" none stC2).1
        = .deviceConflict ∧
     findByKey (validateLicense 100 "MONTH-SORV-BBBB-BBBB-BBBB-BBBB" "dev-2" none stC2).2.store
        "MONTH-SORV-BBBB-BBBB-BBBB-BBBB" = some licC2 ∧
     (validateLicense 100 "MONTH-SORV-BBBB-BBBB-BBBB-BBBB" "dev-2" none stC2).2.deviceMappings
        = stC2.deviceMappings) :=
  ⟨⟨by decide, by decide, by decide, by decide⟩,
   validate_conflict_no_mutation 100 "MONTH-SORV-BBBB-BBBB-BBBB-BBBB" "dev-2" "dev-1"
     none stC2 licC2 (by decide) (by decide) (by decide) (by decide) (by decide)
     (by decide) (by decide) (by decide)⟩

/-- Concrete `checkout.session.completed` event for redelivery experiments. -/
def sessC3 : Session := {
  id := "cs_redelivered"
  customer := some "cus_9"
  subscription := some "sub_9"
  email := "bob@example.com"
  name := some "Bob" }

/-- C3 refuting evaluation: `handleSuccessfulPayment` performs no
idempotency check, so delivering the same `checkout.session.completed`
event twice (the independent random draws give two distinct keys) inserts
TWO licenses carrying the same `stripeSessionId`, where a single delivery
inserts one; the state after two deliveries differs from the state after
one. -/
theorem payment_redelivery_creates_second_license :
    ((handleSuccessfulPayment 0 sessC3 "MONTH-SORV-AAAA-AAAA-AAAA-AAAA"
        (handleSuccessfulPayment 0 sessC3 "MONTH-SORV-BBBB-BBBB-BBBB-BBBB" [])).filter
      (fun l => l.stripeSessionId == some "cs_redelivered")).length = 2 ∧
    ((handleSuccessfulPayment 0 sessC3 "MONTH-SORV-BBBB-BBBB-BBBB-BBBB" []).filter
      (fun l => l.stripeSessionId == some "cs_redelivered")).length = 1 ∧
    handleSuccessfulPayment 0 sessC3 "MONTH-SORV-AAAA-AAAA-AAAA-AAAA"
        (handleSuccessfulPayment 0 sessC3 "MONTH-SORV-BBBB-BBBB-BBBB-BBBB" [])
      ≠ handleSuccessfulPayment 0 sessC3 "MONTH-SORV-BBBB-BBBB-BBBB-BBBB" [] := by
  refine ⟨by decide, by decide, by decide⟩

/-- C4 (amended). Renewal via the invoice-paid event sets the matched
license's `expiresAt` to exactly `now + 30 days` (an absolute target, not an
extension of the old expiry), and status sync with `active` sets it to
exactly the provider period end; consequently every record of the renewed
store still has an ancestor with the same key whose expiry was no larger
ONLY under the hypothesis that the matched key's old expiry lay within 30
days of now — monotonicity is conditional, not unconditional. -/
theorem renewal_sets_absolute_expiry
    (now pe : Nat) (cust subId : String) (store : List License)
    (lic licSub : License)
    (hfind : findByCustomerActive store cust = some lic)
    (hfindSub : findBySubscription store subId = some licSub) :
    (∀ l ∈ handleInvoicePayment now cust store,
        l.licenseKey = lic.licenseKey → l.expiresAt = now + 30 * dayMs) ∧
    (∀ l ∈ handleSubscriptionUpdate subId "active" pe store,
        l.licenseKey = licSub.licenseKey → l.expiresAt = pe * 1000) ∧
    ((∀ a ∈ store, a.licenseKey = lic.licenseKey →
          a.expiresAt ≤ now + 30 * dayMs) →
      ∀ l ∈ handleInvoicePayment now cust store,
        ∃ a ∈ store, a.licenseKey = l.licenseKey ∧ a.expiresAt ≤ l.expiresAt) := by
  have hmem : lic ∈ store := List.mem_of_find?_eq_some hfind
  refine ⟨?_, ?_, ?_⟩
  · intro l hl hlk
    unfold handleInvoicePayment at hl
    rw [hfind] at hl
    dsimp only at hl
    rcases mem_saveLicense hl with rfl | ⟨_, hne⟩
    · rfl
    · exact absurd hlk hne
  · intro l hl hlk
    unfold handleSubscriptionUpdate at hl
    rw [hfindSub] at hl
    dsimp only at hl
    rcases mem_saveLicense hl with rfl | ⟨_, hne⟩
    · rfl
    · exact absurd hlk hne
  · intro hbound l hl
    unfold handleInvoicePayment at hl
    rw [hfind] at hl
    dsimp only at hl
    rcases mem_saveLicense hl with rfl | ⟨hmem, _⟩
    · exact ⟨lic, hmem, rfl, hbound lic hmem rfl⟩
    · exact ⟨l, hmem, rfl, le_refl _⟩

/-- Concrete license whose expiry lies 100 days in the future. -/
def licC4 : License := {
  licenseKey := "MONTH-SORV-CCCC-CCCC-CCCC-CCCC"
  customerEmail := "carol@example.com"
  customerName := some "Carol"
  stripeCustomerId := some "cus_4"
  stripeSubscriptionId := some "sub_4"
  stripeSessionId := some "cs_4"
  plan := "monthly"
  createdAt := 0
  expiresAt := 100 * dayMs
  isActive := true
  deviceId := none
  deviceName := none
  lastValidated := none
  validationCount := 0 }

/-- Witness for C4's theorem at a concrete store holding `licC4` (whose
expiry, adjusted to lie within 30 days, keeps the monotonicity hypothesis
satisfiable is not needed: the exact-value conjuncts are exercised). -/
theorem renewal_sets_absolute_expiry_witness :
    (findByCustomerActive [licC4] "cus_4" = some licC4 ∧
     findBySubscription [licC4] "sub_4" = some licC4) ∧
    ((∀ l ∈ handleInvoicePayment 0 "cus_4" [licC4],
        l.licenseKey = licC4.licenseKey → l.expiresAt = 0 + 30 * dayMs) ∧
     (∀ l ∈ handleSubscriptionUpdate "sub_4" "active" 777 [licC4],
        l.licenseKey = licC4.licenseKey → l.expiresAt = 777 * 1000) ∧
     ((∀ a ∈ [licC4], a.licenseKey = licC4.licenseKey →
          a.expiresAt ≤ 0 + 30 * dayMs) →
       ∀ l ∈ handleInvoicePayment 0 "cus_4" [licC4],
         ∃ a ∈ [licC4], a.licenseKey = l.licenseKey ∧ a.expiresAt ≤ l.expiresAt)) :=
  ⟨⟨by decide, by decide⟩,
   renewal_sets_absolute_expiry 0 777 "cus_4" "sub_4" [licC4] licC4 licC4
     (by decide) (by decide)⟩

/-- Counterexample to C4 as stated: renewing `licC4` (expiry 100 days out)
through the invoice-paid event DECREASES its `expiresAt` to 30 days out. -/
theorem invoice_renewal_decreases_expiry :
    ((handleInvoicePayment 0 "cus_4" [licC4]).map (fun l => l.expiresAt))
      = [30 * dayMs] ∧
    30 * dayMs < licC4.expiresAt := by
  exact ⟨by decide, by decide⟩

/-- C5. Applying a subscription status to the license found by its external
subscription reference: `canceled` or `unpaid` sets `isActive` to false
while leaving `deviceId` and `deviceName` unchanged; `active` sets
`isActive` to true and `expiresAt` to the provider-supplied period end
(seconds, stored as milliseconds), also leaving the device binding
unchanged. -/
theorem subscription_status_effects
    (subId status : String) (pe : Nat) (store : List License) (lic : License)
    (hfind : findBySubscription store subId = some lic) :
    ((status = "canceled" ∨ status = "unpaid") →
      ∀ l ∈ handleSubscriptionUpdate subId status pe store,
        l.licenseKey = lic.licenseKey →
          l.isActive = false ∧ l.deviceId = lic.deviceId ∧
          l.deviceName = lic.deviceName) ∧
    (status = "active" →
      ∀ l ∈ handleSubscriptionUpdate subId status pe store,
        l.licenseKey = lic.licenseKey →
          l.isActive = true ∧ l.expiresAt = pe * 1000 ∧
          l.deviceId = lic.deviceId ∧ l.deviceName = lic.deviceName) := by
  constructor
  · intro hstat l hl hlk
    have hnotActive : (status == "active") = false := by
      rcases hstat with rfl | rfl <;> decide
    have hcanc : (status == "canceled" || status == "unpaid") = true := by
      rcases hstat with rfl | rfl <;> decide
    unfold handleSubscriptionUpdate at hl
    rw [hfind] at hl
    dsimp only at hl
    rw [hnotActive] at hl
    simp only [Bool.false_eq_true, if_false, hcanc, if_true] at hl
    rcases mem_saveLicense hl with rfl | ⟨_, hne⟩
    · exact ⟨rfl, rfl, rfl⟩
    · exact absurd hlk hne
  · intro hstat l hl hlk
    subst hstat
    unfold handleSubscriptionUpdate at hl
    rw [hfind] at hl
    dsimp only at hl
    rcases mem_saveLicense hl with rfl | ⟨_, hne⟩
    · exact ⟨rfl, rfl, rfl, rfl⟩
    · exact absurd hlk hne

/-- Concrete active, device-bound license for exercising status sync. -/
def licC5 : License := {
  licenseKey := "MONTH-SORV-DDDD-DDDD-DDDD-DDDD"
  customerEmail := "dave@example.com"
  customerName := some "Dave"
  stripeCustomerId := some "cus_5"
  stripeSubscriptionId := some "sub_5"
  stripeSessionId := some "cs_5"
  plan := "monthly"
  createdAt := 0
  expiresAt := 5000
  isActive := true
  deviceId := some "dev-5"
  deviceName := some "Desk"
  lastValidated := some 1
  validationCount := 3 }

/-- Witness for C5's theorem: cancelling the subscription of the concrete
bound license. -/
theorem subscription_status_effects_witness :
    findBySubscription [licC5] "sub_5" = some licC5 ∧
    ((("canceled" = "canceled" ∨ ("canceled" : String) = "unpaid") →
      ∀ l ∈ handleSubscriptionUpdate "sub_5" "canceled" 999 [licC5],
        l.licenseKey = licC5.licenseKey →
          l.isActive = false ∧ l.deviceId = licC5.deviceId ∧
          l.deviceName = licC5.deviceName) ∧
     (("canceled" : String) = "active" →
      ∀ l ∈ handleSubscriptionUpdate "sub_5" "canceled" 999 [licC5],
        l.licenseKey = licC5.licenseKey →
          l.isActive = true ∧ l.expiresAt = 999 * 1000 ∧
          l.deviceId = licC5.deviceId ∧ l.deviceName = licC5.deviceName)) :=
  ⟨by decide,
   subscription_status_effects "sub_5" "canceled" 999 [licC5] licC5 (by decide)⟩

/-- C6 (amended). The validate route can mutate at most two stored records:
the one under the validated key, and the one under the key that the
in-process `deviceMappings` cache binds the calling device to (which it may
silently release). Every record whose key is neither of these is bitwise
unchanged, at its original position. -/
theorem validate_frame_other_licenses
    (now : Nat) (key dev : String) (dn : Option String) (st : ServerState)
    (i : Nat) (d : License) (hi : i < st.store.length)
    (hkey : (st.store.getD i d).licenseKey ≠ key)
    (hmap : ∀ ok, lookupMapping st.deviceMappings dev = some ok →
        (st.store.getD i d).licenseKey ≠ ok) :
    ((validateLicense now key dev dn st).2.store).getD i d = st.store.getD i d := by
  unfold validateLicense
  by_cases hp : key = "" ∨ dev = ""
  · rw [if_pos hp]
  · rw [if_neg hp]
    cases hfind : findByKey st.store key with
    | none => rfl
    | some license =>
      have hlk : license.licenseKey = key := findByKey_eq_key hfind
      dsimp only
      by_cases hia : license.isActive = false
      · rw [if_pos hia]
      · rw [if_neg hia]
        by_cases hexp : license.expiresAt < now
        · rw [if_pos hexp]
          dsimp only
          rw [saveLicense_getD _ _ _ _ hi, if_neg]
          simp only [beq_iff_eq]
          simpa [hlk] using hkey
        · rw [if_neg hexp]
          have hrel : (releaseOldDevice st.store st.deviceMappings dev key).getD i d
              = st.store.getD i d :=
            releaseOldDevice_getD st.store st.deviceMappings dev key i d hi hmap
          have hrellen : i < (releaseOldDevice st.store st.deviceMappings dev key).length := by
            rw [releaseOldDevice_length]; exact hi
          by_cases hconf : (optTruthy license.deviceId && license.deviceId != some dev) = true
          · rw [if_pos hconf]
            exact hrel
          · rw [if_neg hconf]
            dsimp only
            rw [saveLicense_getD _ _ _ _ hrellen, hrel, if_neg]
            simp only [beq_iff_eq]
            simpa [hlk] using hkey

/-- Witness for C6's theorem: a validate call that binds a fresh license
leaves an unrelated license (different key, not named by the device map) at
position 0 unchanged. -/
theorem validate_frame_other_licenses_witness :
    (0 < ([licC4, licC1] : List License).length ∧
     (([licC4, licC1] : List License).getD 0 licC1).licenseKey
        ≠ "MONTH-SORV-AAAA-AAAA-AAAA-AAAA" ∧
     (∀ ok, lookupMapping ([] : List (String × String)) "dev-7" = some ok →
        (([licC4, licC1] : List License).getD 0 licC1).licenseKey ≠ ok)) ∧
    ((validateLicense 100 "MONTH-SORV-AAAA-AAAA-AAAA-AAAA" "dev-7" none
        { store := [licC4, licC1], deviceMappings := [] }).2.store).getD 0 licC1
      = ([licC4, licC1] : List License).getD 0 licC1 :=
  ⟨⟨by decide, by decide, by intro ok h; exact Option.noConfusion h⟩,
   validate_frame_other_licenses 100 "MONTH-SORV-AAAA-AAAA-AAAA-AAAA" "dev-7" none
     { store := [licC4, licC1], deviceMappings := [] } 0 licC1 (by decide)
     (by decide) (by intro ok h; exact Option.noConfusion h)⟩

/-- License bound to device `dev-1` under key `KEYA`, for the silent-release
counterexample. -/
def licC6A : License := {
  licenseKey := "KEYA"
  customerEmail := "eve@example.com"
  customerName := some "Eve"
  stripeCustomerId := some "cus_6"
  stripeSubscriptionId := some "sub_6"
  stripeSessionId := some "cs_6"
  plan := "monthly"
  createdAt := 0
  expiresAt := 5000
  isActive := true
  deviceId := some "dev-1"
  deviceName := some "Old Laptop"
  lastValidated := some 1
  validationCount := 2 }

/-- Fresh unbound license under key `KEYB` held by the same store. -/
def licC6B : License := {
  licenseKey := "KEYB"
  customerEmail := "eve@example.com"
  customerName := some "Eve"
  stripeCustomerId := some "cus_6b"
  stripeSubscriptionId := some "sub_6b"
  stripeSessionId := some "cs_6b"
  plan := "monthly"
  createdAt := 0
  expiresAt := 5000
  isActive := true
  deviceId := none
  deviceName := none
  lastValidated := none
  validationCount := 0 }

/-- Counterexample to C6 as stated: with the device map binding `dev-1` to
`KEYA`, validating `KEYB` from `dev-1` succeeds AND clears the `deviceId`
and `deviceName` of the OTHER license `KEYA` — validate does rebind devices
by mutating a second license, with no explicit release action. -/
theorem validate_clears_other_license :
    licC6A.deviceId = some "dev-1" ∧
    ((validateLicense 10 "KEYB" "dev-1" none
        { store := [licC6A, licC6B], deviceMappings := [("dev-1", "KEYA")] }).2.store.map
      (fun l => (l.licenseKey, l.deviceId, l.deviceName)))
      = [("KEYA", none, none), ("KEYB", some "dev-1", some "Chrome Extension")] ∧
    (validateLicense 10 "KEYB" "dev-1" none
        { store := [licC6A, licC6B], deviceMappings := [("dev-1", "KEYA")] }).1
      = .ok 1 := by
  exact ⟨by decide, by decide, by decide⟩

/-- Inserting a document whose key some stored record already carries is
rejected by the unique index. -/
theorem insertModelLicense_dup {lic : ModelLicense} {store : List ModelLicense}
    (h : ∃ l ∈ store, l.licenseKey = lic.licenseKey) :
    insertModelLicense lic store = none := by
  obtain ⟨l0, hmem, hkey⟩ := h
  unfold insertModelLicense
  rw [if_pos]
  simp only [List.any_eq_true]
  exact ⟨l0, hmem, by simpa using hkey⟩

/-- C7 (amended). `createLicenseForCustomer` makes a single insert attempt:
when the freshly generated key collides with any stored record, the
duplicate-key rejection makes the call fail immediately with
`success = false` and leaves the store unchanged — there is no retry loop
and no separate keyspace-exhausted failure. -/
theorem create_license_no_retry_on_duplicate
    (addMonths : Nat → Nat → Nat) (now : Nat) (email : String)
    (name : Option String) (type : String) (sd : LicenseService.StripeData)
    (p1 p2 p3 p4 : String) (store : List ModelLicense)
    (hdup : ∃ l ∈ store, l.licenseKey =
        (LicenseService.generateLicenseKey type (if type == "yearly" then 12 else 1)
          p1 p2 p3 p4).key) :
    (LicenseService.createLicenseForCustomer addMonths now email name type sd
        p1 p2 p3 p4 store).1.success = false ∧
    (LicenseService.createLicenseForCustomer addMonths now email name type sd
        p1 p2 p3 p4 store).2 = store := by
  unfold LicenseService.createLicenseForCustomer
  dsimp only
  rw [insertModelLicense_dup (by exact hdup)]
  exact ⟨rfl, rfl⟩

/-- Stored license whose key equals the one generated from four `AAAA`
segments for a monthly plan. -/
def mlicC7 : ModelLicense := {
  licenseKey := "MONTH-SORV-AAAA-AAAA-AAAA-AAAA"
  licenseType := "monthly"
  durationMonths := 1
  customerEmail := "frank@example.com"
  customerName := some "Frank"
  stripeCustomerId := none
  stripeSubscriptionId := none
  stripePaymentIntentId := none
  stripeInvoiceId := none
  createdAt := 0
  activatedAt := none
  expiresAt := 999
  isActive := true
  deviceId := none
  deviceName := none
  lastValidated := none
  validationCount := 0
  notes := none
  isTrial := false
  trialEndsAt := none }

/-- Witness for C7's theorem at the concrete colliding store. -/
theorem create_license_no_retry_on_duplicate_witness :
    (∃ l ∈ [mlicC7], l.licenseKey =
        (LicenseService.generateLicenseKey "monthly"
          (if ("monthly" == "yearly") then 12 else 1)
          "AAAA" "AAAA" "AAAA" "AAAA").key) ∧
    ((LicenseService.createLicenseForCustomer (fun t m => t + m) 0 "frank@example.com"
        (some "Frank") "monthly" ⟨none, none, none, none⟩
        "AAAA" "AAAA" "AAAA" "AAAA" [mlicC7]).1.success = false ∧
     (LicenseService.createLicenseForCustomer (fun t m => t + m) 0 "frank@example.com"
        (some "Frank") "monthly" ⟨none, none, none, none⟩
        "AAAA" "AAAA" "AAAA" "AAAA" [mlicC7]).2 = [mlicC7]) :=
  ⟨⟨mlicC7, by decide, by decide⟩,
   create_license_no_retry_on_duplicate (fun t m => t + m) 0 "frank@example.com"
     (some "Frank") "monthly" ⟨none, none, none, none⟩
     "AAAA" "AAAA" "AAAA" "AAAA" [mlicC7] ⟨mlicC7, by decide, by decide⟩⟩

/-- Counterexample to C7 as stated: a SINGLE store-level duplicate-key
rejection by itself makes license creation fail (`success = false`, store
unchanged), with no retries and no keyspace-exhausted distinction. -/
theorem single_duplicate_fails_creation :
    (LicenseService.createLicenseForCustomer (fun t m => t + m) 0 "frank@example.com"
        (some "Frank") "monthly" ⟨none, none, none, none⟩
        "AAAA" "AAAA" "AAAA" "AAAA" [mlicC7]).1
      = { success := false, key := none } ∧
    (LicenseService.createLicenseForCustomer (fun t m => t + m) 0 "frank@example.com"
        (some "Frank") "monthly" ⟨none, none, none, none⟩
        "AAAA" "AAAA" "AAAA" "AAAA" [mlicC7]).2 = [mlicC7] := by
  exact ⟨by decide, by decide⟩

/-- The plan tag the key generator prepends, read off from the source's
if/else chain: `YEAR` for yearly, `LIFE` for lifetime, `MONTH` otherwise. -/
def planTag (type : String) : String :=
  if type == "yearly" then "YEAR" else if type == "lifetime" then "LIFE" else "MONTH"

/-- C8 (amended). Every generated key is the plan tag — drawn from the
closed set containing `MONTH`, `YEAR` and `LIFE` (not `MONTHLY`, `YEARLY`,
`LIFETIME`) — followed by a dash and the `SORV-`-prefixed random segments;
the three plan types carry three pairwise distinct tags. The standalone
`server.js` generator always tags `MONTH` (it only issues monthly
licenses). -/
theorem generate_key_tag_structure (type : String) (d : Nat)
    (p1 p2 p3 p4 : String) :
    (LicenseService.generateLicenseKey type d p1 p2 p3 p4).key =
      planTag type ++ "-" ++ ("SORV-" ++ p1 ++ "-" ++ p2 ++ "-" ++ p3 ++ "-" ++ p4) ∧
    planTag "monthly" = "MONTH" ∧ planTag "yearly" = "YEAR" ∧
    planTag "lifetime" = "LIFE" ∧
    (planTag "monthly" ≠ planTag "yearly" ∧ planTag "monthly" ≠ planTag "lifetime" ∧
     planTag "yearly" ≠ planTag "lifetime") ∧
    generateLicenseKey p1 p2 p3 p4 =
      "MONTH-" ++ ("SORV-" ++ p1 ++ "-" ++ p2 ++ "-" ++ p3 ++ "-" ++ p4) := by
  refine ⟨?_, rfl, rfl, rfl, ⟨by decide, by decide, by decide⟩, rfl⟩
  unfold LicenseService.generateLicenseKey planTag
  by_cases hy : (type == "yearly") = true
  · simp [hy]
  · by_cases hl : (type == "lifetime") = true
    · simp [hy, hl]
    · simp [hy, hl]

/-- Counterexample to C8 as stated: for each plan type, the generated key
does NOT begin with the corresponding word from the claimed tag set
(`MONTHLY` / `YEARLY` / `LIFETIME`) — the prefix of that length differs. -/
theorem generate_key_tag_not_full_plan_word :
    ((LicenseService.generateLicenseKey "monthly" 1
        "AAAA" "AAAA" "AAAA" "AAAA").key).toList.take 7 ≠ "MONTHLY".toList ∧
    ((LicenseService.generateLicenseKey "yearly" 1
        "AAAA" "AAAA" "AAAA" "AAAA").key).toList.take 6 ≠ "YEARLY".toList ∧
    ((LicenseService.generateLicenseKey "lifetime" 1
        "AAAA" "AAAA" "AAAA" "AAAA").key).toList.take 8 ≠ "LIFETIME".toList := by
  exact ⟨by decide, by decide, by decide⟩

/-- C9. When the caller supplies no device id, `validateLicenseKey` skips
the device-conflict check even on a license already bound to a device: the
call succeeds on any active, unexpired license found by key, returning the
ceil-of-days-left, and the persisted record only gains the validation-time
stamp and the incremented counter — the existing `deviceId`, `deviceName`
and `activatedAt` binding is unchanged. -/
theorem svc_validate_no_deviceId_succeeds
    (now : Nat) (key : String) (dn : Option String)
    (store : List ModelLicense) (lic : ModelLicense)
    (hfind : store.find? (fun l => l.licenseKey == key && l.isActive) = some lic)
    (hexp : ¬ lic.expiresAt < now) :
    (LicenseService.validateLicenseKey now key none dn store).1 =
      .valid ((lic.expiresAt - now + dayMs - 1) / dayMs) ∧
    ∀ l ∈ (LicenseService.validateLicenseKey now key none dn store).2,
      l.licenseKey = lic.licenseKey →
        l = { lic with lastValidated := some now, validationCount := lic.validationCount + 1 } := by
  have hres : LicenseService.validateLicenseKey now key none dn store =
      (.valid ((lic.expiresAt - now + dayMs - 1) / dayMs),
       saveModelLicense
         { lic with lastValidated := some now, validationCount := lic.validationCount + 1 }
         store) := by
    unfold LicenseService.validateLicenseKey
    rw [hfind]
    dsimp only
    rw [if_neg hexp, if_neg (by simp [optTruthy])]
    dsimp only [optTruthy]
    rw [if_neg (by simp)]
  refine ⟨by rw [hres], ?_⟩
  intro l hl hlk
  rw [hres] at hl
  rcases mem_saveModelLicense hl with rfl | ⟨_, hne⟩
  · rfl
  · exact absurd hlk hne

/-- Active license bound to `dev-1`, queried without a device id. -/
def mlicC9 : ModelLicense := {
  licenseKey := "YEAR-SORV-EEEE-EEEE-EEEE-EEEE"
  licenseType := "yearly"
  durationMonths := 12
  customerEmail := "gina@example.com"
  customerName := some "Gina"
  stripeCustomerId := some "cus_9"
  stripeSubscriptionId := some "sub_9"
  stripePaymentIntentId := none
  stripeInvoiceId := none
  createdAt := 0
  activatedAt := some 5
  expiresAt := 2 * dayMs
  isActive := true
  deviceId := some "dev-1"
  deviceName := some "Phone"
  lastValidated := some 5
  validationCount := 4
  notes := none
  isTrial := false
  trialEndsAt := none }

/-- Witness for C9's theorem: validating the bound license `mlicC9` with no
device id succeeds and leaves the binding alone. -/
theorem svc_validate_no_deviceId_succeeds_witness :
    ([mlicC9].find? (fun l => l.licenseKey == "YEAR-SORV-EEEE-EEEE-EEEE-EEEE" && l.isActive)
        = some mlicC9 ∧ ¬ mlicC9.expiresAt < dayMs) ∧
    ((LicenseService.validateLicenseKey dayMs "YEAR-SORV-EEEE-EEEE-EEEE-EEEE" none none
        [mlicC9]).1 = .valid ((mlicC9.expiresAt - dayMs + dayMs - 1) / dayMs) ∧
     ∀ l ∈ (LicenseService.validateLicenseKey dayMs "YEAR-SORV-EEEE-EEEE-EEEE-EEEE" none none
        [mlicC9]).2,
       l.licenseKey = mlicC9.licenseKey →
         l = { mlicC9 with lastValidated := some dayMs, validationCount := mlicC9.validationCount + 1 }) :=
  ⟨⟨by decide, by decide⟩,
   svc_validate_no_deviceId_succeeds dayMs "YEAR-SORV-EEEE-EEEE-EEEE-EEEE" none
     [mlicC9] mlicC9 (by decide) (by decide)⟩

/-- C10. The device-license lookup is not read-only: on both the service's
`getDeviceLicense` and the standalone server's `POST /api/device-license`
route, when the license bound to the queried device is active but strictly
past expiry, the lookup itself flips `isActive` to false, persists it, and
reports that the device has no license. -/
theorem device_lookup_collapses_expired
    (now nowS : Nat) (devId devIdS : String)
    (store : List ModelLicense) (lic : ModelLicense) (st : ServerState)
    (licS : License)
    (hfind : store.find? (fun l => l.deviceId == some devId && l.isActive) = some lic)
    (hexp : lic.expiresAt < now)
    (hdev : devIdS ≠ "")
    (hfindS : findByDeviceActive st.store devIdS = some licS)
    (hexpS : licS.expiresAt < nowS) :
    (LicenseService.getDeviceLicense now devId store).1 = .noLicense ∧
    (∀ l ∈ (LicenseService.getDeviceLicense now devId store).2,
        l.licenseKey = lic.licenseKey → l.isActive = false) ∧
    (deviceLicenseLookup nowS devIdS st).1 = .noLicense ∧
    (∀ l ∈ (deviceLicenseLookup nowS devIdS st).2.store,
        l.licenseKey = licS.licenseKey → l.isActive = false) := by
  have hres : LicenseService.getDeviceLicense now devId store =
      (.noLicense, saveModelLicense { lic with isActive := false } store) := by
    unfold LicenseService.getDeviceLicense
    rw [hfind]
    dsimp only
    rw [if_pos hexp]
  have hresS : deviceLicenseLookup nowS devIdS st =
      (.noLicense,
        { store := saveLicense { licS with isActive := false } st.store
          deviceMappings := deleteMapping st.deviceMappings devIdS }) := by
    unfold deviceLicenseLookup
    rw [if_neg hdev, hfindS]
    dsimp only
    rw [if_pos hexpS]
  refine ⟨by rw [hres], ?_, by rw [hresS], ?_⟩
  · intro l hl hlk
    rw [hres] at hl
    rcases mem_saveModelLicense hl with rfl | ⟨_, hne⟩
    · rfl
    · exact absurd hlk hne
  · intro l hl hlk
    rw [hresS] at hl
    rcases mem_saveLicense hl with rfl | ⟨_, hne⟩
    · rfl
    · exact absurd hlk hne

/-- Witness for C10's theorem: an expired bound license on each side. -/
theorem device_lookup_collapses_expired_witness :
    ([mlicC9].find? (fun l => l.deviceId == some "dev-1" && l.isActive) = some mlicC9 ∧
     mlicC9.expiresAt < 3 * dayMs ∧
     ("dev-1" : String) ≠ "" ∧
     findByDeviceActive [licC2] "dev-1" = some licC2 ∧
     licC2.expiresAt < 6000) ∧
    ((LicenseService.getDeviceLicense (3 * dayMs) "dev-1" [mlicC9]).1 = .noLicense ∧
     (∀ l ∈ (LicenseService.getDeviceLicense (3 * dayMs) "dev-1" [mlicC9]).2,
         l.licenseKey = mlicC9.licenseKey → l.isActive = false) ∧
     (deviceLicenseLookup 6000 "dev-1" { store := [licC2], deviceMappings := [] }).1
        = .noLicense ∧
     (∀ l ∈ (deviceLicenseLookup 6000 "dev-1"
          { store := [licC2], deviceMappings := [] }).2.store,
         l.licenseKey = licC2.licenseKey → l.isActive = false)) :=
  ⟨⟨by decide, by decide, by decide, by decide, by decide⟩,
   device_lookup_collapses_expired (3 * dayMs) 6000 "dev-1" "dev-1" [mlicC9] mlicC9
     { store := [licC2], deviceMappings := [] } licC2
     (by decide) (by decide) (by decide) (by decide) (by decide)⟩
